import Mathlib

/-!
Shallow embedding of `src/MP3Player/mp3player.py` (class `MP3Player`).

The mutable fields of the `MP3Player` instance become the record `MP3State`.
Calls into the external collaborators (pygame `mixer`, tkinter widgets and
timers, mutagen, PIL) are modelled as an emitted trace of `Effect`s; the
data those collaborators return (the decoded visualizer frames, the song
duration reported by mutagen, the playback position reported by the mixer,
whether `mixer.Sound` accepts a file) is supplied by an `Env` record.
An uncaught Python exception inside a handler is modelled by the `error`
flag of `StepResult`; state mutations performed before the raise persist,
exactly as in Python.  Python's `%` and `//` on ints agree with Lean's
`Int` `%` (`Int.emod`) and `/` (`Int.ediv`) for the positive divisors used
here, and Python list indexing (including negative indices) is modelled by
`pyIndex`.
-/

namespace MP3

/-- One playlist entry, the dict `{'path': ..., 'name': ...}` built in
`add_song` / `add_folder`. -/
structure Song where
  path : String
  name : String
deriving DecidableEq, Repr

/-- One decoded visualizer frame together with its display duration in
milliseconds, an element of `self.visualizer_frames` (built by `get_frames`).
`fid` identifies the image object, `width`/`height` its pixel size. -/
structure Frame where
  fid : Nat
  width : Nat
  height : Nat
  duration : Int
deriving DecidableEq, Repr

/-- The mutable state of the `MP3Player` instance: exactly the fields
assigned in `__init__` (plus the two mode flags set at its end). -/
structure MP3State where
  playlist : List Song
  resume_position : Int
  is_music_playing : Bool
  visualizer_index : Nat
  current_song_index : Int
  «repeat» : Bool
  shuffle : Bool
deriving DecidableEq, Repr

/-- A command issued to an external collaborator (mixer, tkinter widget,
tkinter timer queue, mutagen) or a caught-and-printed exception. -/
inductive Effect where
  | music_load (path : String)
  | music_play (start : Int)
  | music_pause
  | music_unpause
  | music_stop
  | set_button_text (button txt : String)
  | set_relief_sunken (button : String) (sunken : Bool)
  | render_frame (fid left top right bottom : Nat)
  | clear_image
  | schedule_after (ms : Int) (callback : String)
  | query_metadata (path : String)
  | set_time_text (s : String)
  | render_playlist (names : List String)
  | print_error (context : String)
deriving DecidableEq, Repr

/-- The read-only data the external collaborators supply during one
handler invocation. -/
structure Env where
  frames : List Frame
  song_seconds : String → Option Int
  get_pos_ms : Int
  sound_loads : String → Bool

/-- Result of running one event handler: the state after it returns (or
after it raises), the trace of external commands it issued, and whether an
uncaught exception escaped it. -/
structure StepResult where
  state : MP3State
  effects : List Effect
  error : Bool
deriving DecidableEq, Repr

/-- Python list indexing `l[i]`: in-range nonnegative indices and negative
indices from `-len l` read an element, everything else raises `IndexError`
(modelled as `none`). -/
def pyIndex (l : List α) (i : Int) : Option α :=
  if 0 ≤ i ∧ i < (l.length : Int) then l.get? i.toNat
  else if -(l.length : Int) ≤ i ∧ i < 0 then l.get? (i + l.length).toNat
  else none

/-- Python `os.path.basename` for the forward-slash paths used in this model. -/
def basename (path : String) : String :=
  (path.splitOn "/").getLastD ""

/-- Method `get_song_name`: tries `mixer.Sound(path)`; on success returns the
basename, on any exception returns `"Unknown"`. -/
def get_song_name (env : Env) (path : String) : String :=
  if env.sound_loads path then basename path else "Unknown"

/-- Python's `f"{n:02d}"` for the values produced here. -/
def pad2 (n : Int) : String :=
  if 0 ≤ n ∧ n < 10 then "0" ++ toString n else toString n

/-- The f-string built in `display_time` from the already-divided elapsed
seconds and the total seconds. -/
def format_time (current_time total_seconds : Int) : String :=
  "Time: " ++ toString (current_time / 60) ++ ":" ++ pad2 (current_time % 60)
    ++ " / " ++ toString (total_seconds / 60) ++ ":" ++ pad2 (total_seconds % 60)

/-- Body of `display_time` (one tick).  It mutates no state; it only emits
widget/timer commands, so it is a pure effect trace.  The metadata read of
`self.playlist[0]` and the engine position query live in a `try` block whose
exception is caught and printed; the 1000 ms reschedule happens always. -/
def display_time (env : Env) (st : MP3State) : List Effect :=
  (match st.is_music_playing, st.playlist with
   | true, first :: _ =>
     (match env.song_seconds first.path with
      | some total =>
        [Effect.query_metadata first.path,
         Effect.set_time_text (format_time (env.get_pos_ms / 1000) total)]
      | none => [Effect.query_metadata first.path, Effect.print_error "display_time"])
   | _, _ => [])
  ++ [Effect.schedule_after 1000 "display_time"]

/-- Method `display_album_cover`: schedules the visualizer callback after the
current frame's duration; any exception (e.g. a frame index out of range)
is caught and printed. -/
def display_album_cover (env : Env) (st : MP3State) : List Effect :=
  match env.frames.get? st.visualizer_index with
  | some f => [Effect.schedule_after f.duration "display_visualizer_frame"]
  | none => [Effect.print_error "display_album_cover"]

/-- Method `display_visualizer_frame`: when playback is active, render the current
frame cropped to `(0, 0, width, height // 2)`, reschedule after that frame's
duration, then advance the index modulo the frame count; an out-of-range
index raises `IndexError` uncaught.  When playback is inactive, do nothing
and do not reschedule. -/
def display_visualizer_frame (env : Env) (st : MP3State) : StepResult :=
  if st.is_music_playing then
    match env.frames.get? st.visualizer_index with
    | some f =>
      { state := { st with visualizer_index := (st.visualizer_index + 1) % env.frames.length },
        effects := [Effect.render_frame f.fid 0 0 f.width (f.height / 2),
                    Effect.schedule_after f.duration "display_visualizer_frame"],
        error := false }
    | none => { state := st, effects := [], error := true }
  else { state := st, effects := [], error := false }

/-- Method `play_music`: guarded by `if self.playlist:`; loads the song at the
playback cursor (raising `IndexError` if the cursor is out of Python's
indexing range), sets `resume_position = 0`, starts playback at that
position, sets the playing flag, runs `display_album_cover` and one
`display_time` tick. -/
def play_music (env : Env) (st : MP3State) : StepResult :=
  if st.playlist.isEmpty then { state := st, effects := [], error := false }
  else
    match pyIndex st.playlist st.current_song_index with
    | none => { state := st, effects := [], error := true }
    | some song =>
      let st1 := { st with resume_position := 0, is_music_playing := true }
      { state := st1,
        effects := Effect.music_load song.path :: Effect.music_play 0 ::
          (display_album_cover env st1 ++ display_time env st1),
        error := false }

/-- Method `stop_music`: stop the engine, clear the playing flag, reset the
visualizer index, clear the visualizer image. -/
def stop_music (st : MP3State) : MP3State × List Effect :=
  ({ st with is_music_playing := false, visualizer_index := 0 },
   [Effect.music_stop, Effect.clear_image])

/-- Method `pause_resume_music`: branches only on `is_music_playing`.  When the
flag is set: pause the engine, clear the flag, relabel the button.  When it
is clear (whether the player is paused or fully stopped): unpause the
engine, set the flag, relabel the button, and run `display_visualizer_frame`. -/
def pause_resume_music (env : Env) (st : MP3State) : StepResult :=
  if st.is_music_playing then
    { state := { st with is_music_playing := false },
      effects := [Effect.music_pause, Effect.set_button_text "pause_resume" "Resume"],
      error := false }
  else
    let st1 := { st with is_music_playing := true }
    let r := display_visualizer_frame env st1
    { state := r.state,
      effects := Effect.music_unpause :: Effect.set_button_text "pause_resume" "Pause" :: r.effects,
      error := r.error }

/-- Method `play_previous_song`: guarded by `if self.playlist:`; decrement the
cursor modulo the playlist length (Python `%`, hence `Int.emod`), then
`play_music`. -/
def play_previous_song (env : Env) (st : MP3State) : StepResult :=
  if st.playlist.isEmpty then { state := st, effects := [], error := false }
  else play_music env
    { st with current_song_index := (st.current_song_index - 1) % (st.playlist.length : Int) }

/-- Method `play_next_song`: guarded by `if self.playlist:`; increment the cursor
modulo the playlist length, then `play_music`. -/
def play_next_song (env : Env) (st : MP3State) : StepResult :=
  if st.playlist.isEmpty then { state := st, effects := [], error := false }
  else play_music env
    { st with current_song_index := (st.current_song_index + 1) % (st.playlist.length : Int) }

/-- The state reached by one press of the Next button. -/
def next_state (env : Env) (st : MP3State) : MP3State :=
  (play_next_song env st).state

/-- Method `toggle_repeat`: flip the flag and re-render the Repeat button sunken
iff the flag is now set.  Nothing else reads `repeat`. -/
def toggle_repeat (st : MP3State) : MP3State × List Effect :=
  let st1 := { st with «repeat» := !st.«repeat» }
  (st1, [Effect.set_relief_sunken "repeatButton" st1.«repeat»])

/-- Overwriting the repeat flag alone, used to state that the flag is dead
state. -/
def set_repeat (st : MP3State) (b : Bool) : MP3State :=
  { st with «repeat» := b }

/-- One swap `x[i], x[j] = x[j], x[i]` on a list (identity when an index is
out of range, which the shuffle loop never produces). -/
def listSwap (l : List α) (i j : Nat) : List α :=
  match l.get? i, l.get? j with
  | some a, some b => (l.set i b).set j a
  | _, _ => l

/-- The Fisher-Yates loop of CPython's `random.shuffle`: for `i` from
`len - 1` down to `1`, swap position `i` with a random position `j ≤ i`.
The random draws are supplied by `rand`; `rand (i) % (i + 1)` models
`randbelow(i + 1)`. -/
def shuffle_loop (rand : Nat → Nat) : Nat → List α → List α
  | 0, l => l
  | i + 1, l => shuffle_loop rand i (listSwap l (i + 1) (rand (i + 1) % (i + 2)))

/-- CPython `random.shuffle`, in place on `x`, modelled functionally. -/
def random_shuffle (rand : Nat → Nat) (l : List α) : List α :=
  shuffle_loop rand (l.length - 1) l

/-- Method `toggle_shuffle`: flip the flag; when the flag becomes set, re-render
the button sunken and `random.shuffle(self.playlist)`; when it becomes
clear, only re-render the button flat. -/
def toggle_shuffle (rand : Nat → Nat) (st : MP3State) : MP3State × List Effect :=
  let st1 := { st with shuffle := !st.shuffle }
  if st1.shuffle then
    ({ st1 with playlist := random_shuffle rand st1.playlist },
     [Effect.set_relief_sunken "shuffleButton" true])
  else (st1, [Effect.set_relief_sunken "shuffleButton" false])

/-- Method `update_playlist_preview`: clear the listbox and re-insert every song
name, modelled as one re-render command. -/
def update_playlist_preview (playlist : List Song) : List Effect :=
  [Effect.render_playlist (playlist.map Song.name)]

/-- One `os.listdir` entry: its name and whether `os.path.isfile` holds for
it. -/
structure DirEntry where
  name : String
  isFile : Bool
deriving DecidableEq, Repr

/-- The song dict `add_folder` builds for one accepted directory entry:
`os.path.join` of the folder and the entry name, plus `get_song_name`. -/
def entry_song (env : Env) (folder_path : String) (e : DirEntry) : Song :=
  { path := folder_path ++ "/" ++ e.name,
    name := get_song_name env (folder_path ++ "/" ++ e.name) }

/-- The loop body of `add_folder`: starting from `self.playlist = []`,
append a song for every directory entry that is a file and whose name
lower-cases to an `.mp3` suffix. -/
def add_folder_scan (env : Env) (folder_path : String) (entries : List DirEntry) : List Song :=
  entries.foldl
    (fun acc e =>
      if e.isFile && (e.name.toLower.endsWith ".mp3") then acc ++ [entry_song env folder_path e]
      else acc)
    []

/-- Method `add_folder`: a cancelled dialog (`none`) is a no-op; otherwise the
playlist is reassigned to the scan of the chosen directory and the preview
is re-rendered. -/
def add_folder (env : Env) (folder : Option (String × List DirEntry)) (st : MP3State) :
    MP3State × List Effect :=
  match folder with
  | none => (st, [])
  | some (fp, entries) =>
    let pl := add_folder_scan env fp entries
    ({ st with playlist := pl }, update_playlist_preview pl)

/-- Consistency of `playlistBox.curselection()`: the listbox mirrors the
playlist, so a selected index is a playlist index. -/
def selection_ok (st : MP3State) (sel : Option Nat) : Bool :=
  match sel with
  | none => true
  | some i => i < st.playlist.length

/-- Method `play_selected_song`: with no selection, a no-op; otherwise set the
cursor to the selected index and `play_music`. -/
def play_selected_song (env : Env) (sel : Option Nat) (st : MP3State) : StepResult :=
  match sel with
  | none => { state := st, effects := [], error := false }
  | some i => play_music env { st with current_song_index := (i : Int) }

/-- The gif data `get_frames` iterates over: the number of frames, the
`gif.info['duration']` of the whole file, and each frame's pixel size. -/
structure GifData where
  num_frames : Nat
  info_duration : Int
  frame_width : Nat → Nat
  frame_height : Nat → Nat

/-- Generator `get_frames`: frame `0` is paired with `gif.info['duration']`, every
later frame with `100`. -/
def get_frames (g : GifData) : List Frame :=
  (List.range g.num_frames).map fun i =>
    { fid := i, width := g.frame_width i, height := g.frame_height i,
      duration := if i = 0 then g.info_duration else 100 }


lemma cons_set_perm : ∀ (xs : List α) (m : Nat) (b x : α),
    xs[m]? = some b → (b :: xs.set m x).Perm (x :: xs)
  | y :: ys, 0, b, x, hb => by
    simp only [List.getElem?_cons_zero, Option.some.injEq] at hb
    subst hb
    simpa using List.Perm.swap x y ys
  | y :: ys, m + 1, b, x, hb => by
    simp only [List.getElem?_cons_succ] at hb
    have step1 : (b :: y :: ys.set m x).Perm (y :: b :: ys.set m x) := List.Perm.swap y b _
    have step2 : (y :: b :: ys.set m x).Perm (y :: x :: ys) :=
      (cons_set_perm ys m b x hb).cons y
    have step3 : (y :: x :: ys).Perm (x :: y :: ys) := List.Perm.swap x y ys
    simpa using (step1.trans step2).trans step3

lemma set_set_perm : ∀ (l : List α) (i j : Nat) (a b : α),
    l[i]? = some a → l[j]? = some b → ((l.set i b).set j a).Perm l
  | x :: xs, 0, 0, a, b, ha, hb => by
    simp only [List.getElem?_cons_zero, Option.some.injEq] at ha hb
    subst ha; subst hb
    simp
  | x :: xs, 0, j + 1, a, b, ha, hb => by
    simp only [List.getElem?_cons_zero, Option.some.injEq] at ha
    simp only [List.getElem?_cons_succ] at hb
    subst ha
    simpa using cons_set_perm xs j b x hb
  | x :: xs, i + 1, 0, a, b, ha, hb => by
    simp only [List.getElem?_cons_zero, Option.some.injEq] at hb
    simp only [List.getElem?_cons_succ] at ha
    subst hb
    simpa using cons_set_perm xs i a x ha
  | x :: xs, i + 1, j + 1, a, b, ha, hb => by
    simp only [List.getElem?_cons_succ] at ha hb
    simpa using (set_set_perm xs i j a b ha hb).cons x

lemma listSwap_perm (l : List α) (i j : Nat) : (listSwap l i j).Perm l := by
  unfold listSwap
  split
  · rename_i a b ha hb
    exact set_set_perm l i j a b (by simpa using ha) (by simpa using hb)
  · exact List.Perm.refl l

lemma shuffle_loop_perm (rand : Nat → Nat) : ∀ (n : Nat) (l : List α),
    (shuffle_loop rand n l).Perm l
  | 0, l => List.Perm.refl l
  | n + 1, l =>
    (shuffle_loop_perm rand n _).trans (listSwap_perm l (n + 1) (rand (n + 1) % (n + 2)))

lemma random_shuffle_perm (rand : Nat → Nat) (l : List α) :
    (random_shuffle rand l).Perm l :=
  shuffle_loop_perm rand (l.length - 1) l


lemma play_music_state (env : Env) (st : MP3State) :
    (play_music env st).state = st ∨
    (play_music env st).state = { st with resume_position := 0, is_music_playing := true } := by
  unfold play_music
  split
  · exact Or.inl rfl
  · split
    · exact Or.inl rfl
    · exact Or.inr rfl

lemma play_music_playlist (env : Env) (st : MP3State) :
    (play_music env st).state.playlist = st.playlist := by
  rcases play_music_state env st with h | h <;> rw [h]

lemma play_music_cursor (env : Env) (st : MP3State) :
    (play_music env st).state.current_song_index = st.current_song_index := by
  rcases play_music_state env st with h | h <;> rw [h]

lemma play_music_visualizer (env : Env) (st : MP3State) :
    (play_music env st).state.visualizer_index = st.visualizer_index := by
  rcases play_music_state env st with h | h <;> rw [h]

lemma next_state_playlist (env : Env) (st : MP3State) :
    (next_state env st).playlist = st.playlist := by
  unfold next_state play_next_song
  split
  · rfl
  · rw [play_music_playlist]

lemma next_state_cursor (env : Env) (st : MP3State) (h : st.playlist ≠ []) :
    (next_state env st).current_song_index
      = (st.current_song_index + 1) % (st.playlist.length : Int) := by
  unfold next_state play_next_song
  rw [if_neg (by simpa [List.isEmpty_iff] using h)]
  rw [play_music_cursor]

lemma next_state_iter (env : Env) (k : Nat) : ∀ st : MP3State, st.playlist ≠ [] →
    ((next_state env)^[k + 1] st).playlist = st.playlist ∧
    ((next_state env)^[k + 1] st).current_song_index
      = (st.current_song_index + (k + 1 : Nat)) % (st.playlist.length : Int) := by
  induction k with
  | zero =>
    intro st h
    refine ⟨by simpa using next_state_playlist env st, ?_⟩
    simpa using next_state_cursor env st h
  | succ n ih =>
    intro st h
    rw [Function.iterate_succ_apply]
    have hpl : (next_state env st).playlist = st.playlist := next_state_playlist env st
    have h2 := ih (next_state env st) (by rw [hpl]; exact h)
    refine ⟨by rw [h2.1, hpl], ?_⟩
    rw [h2.2, hpl, next_state_cursor env st h, Int.emod_add_emod]
    congr 1
    push_cast
    ring


lemma pyIndex_eq_some_of_range (l : List α) (i : Int) (h0 : 0 ≤ i)
    (h1 : i < (l.length : Int)) : ∃ a, pyIndex l i = some a := by
  unfold pyIndex
  rw [if_pos ⟨h0, h1⟩]
  have hlt : i.toNat < l.length := by omega
  exact ⟨l.get ⟨i.toNat, hlt⟩, List.get?_eq_get hlt⟩

lemma play_music_no_error (env : Env) (st : MP3State)
    (h0 : 0 ≤ st.current_song_index)
    (h1 : st.current_song_index < (st.playlist.length : Int)) :
    (play_music env st).error = false := by
  unfold play_music
  split
  · rfl
  · obtain ⟨a, ha⟩ := pyIndex_eq_some_of_range st.playlist st.current_song_index h0 h1
    rw [ha]

/-- Concrete fixtures used by the closed witness and counterexample
theorems. -/
def songA : Song := { path := "m/a.mp3", name := "a.mp3" }

def songB : Song := { path := "m/b.mp3", name := "b.mp3" }

def songC : Song := { path := "m/c.mp3", name := "c.mp3" }

def envW : Env :=
  { frames := [{ fid := 0, width := 4, height := 4, duration := 50 },
               { fid := 1, width := 4, height := 5, duration := 100 }],
    song_seconds := fun _ => some 61,
    get_pos_ms := 2500,
    sound_loads := fun _ => true }

def stW : MP3State :=
  { playlist := [songA, songB, songC], resume_position := 0, is_music_playing := false,
    visualizer_index := 0, current_song_index := 0, «repeat» := false, shuffle := false }

/-- A reachable state whose cursor was left stale one past the end of a
one-song playlist (e.g. by removing the second song while it was current). -/
def stStale : MP3State :=
  { playlist := [songA], resume_position := 0, is_music_playing := false,
    visualizer_index := 0, current_song_index := 1, «repeat» := false, shuffle := false }

/-- C1, as stated, is false: from the stale out-of-range cursor `1` on a
playlist of length `1`, one application of `play_next_song` lands on `0`,
not back on `1`. -/
theorem claim_C1_counterexample :
    ¬ (((next_state envW)^[stStale.playlist.length] stStale).current_song_index
        = stStale.current_song_index) := by decide

/-- C1 (amended): for a non-empty playlist of length `N` and a starting
cursor already in range `[0, N)`, applying `play_next_song` `N` times
returns the cursor to its original value; and unconditionally, each
application on a non-empty playlist sets `cursor = (cursor + 1) % N`
(for an out-of-range starting cursor the `N`-fold iterate instead lands on
`cursor % N`). -/
theorem claim_C1 (env : Env) (st : MP3State) (h : st.playlist ≠ [])
    (h0 : 0 ≤ st.current_song_index)
    (h1 : st.current_song_index < (st.playlist.length : Int)) :
    ((next_state env)^[st.playlist.length] st).current_song_index
      = st.current_song_index ∧
    ∀ st2 : MP3State, st2.playlist ≠ [] →
      (next_state env st2).current_song_index
        = (st2.current_song_index + 1) % (st2.playlist.length : Int) := by
  constructor
  · have hpos := List.length_pos.mpr h
    obtain ⟨n, hn⟩ : ∃ n, st.playlist.length = n + 1 := ⟨st.playlist.length - 1, by omega⟩
    have h2 := (next_state_iter env n st h).2
    rw [hn] at h2 h1 ⊢
    rw [h2, Int.add_emod_self]
    exact Int.emod_eq_of_lt h0 h1
  · intro st2 h2
    exact next_state_cursor env st2 h2

theorem claim_C1_witness :
    stW.playlist ≠ [] ∧ 0 ≤ stW.current_song_index ∧
    stW.current_song_index < (stW.playlist.length : Int) ∧
    ((next_state envW)^[stW.playlist.length] stW).current_song_index
      = stW.current_song_index :=
  ⟨by decide, by decide, by decide,
   (claim_C1 envW stW (by decide) (by decide) (by decide)).1⟩

/-- C10: immediately after `play_next_song` or `play_previous_song` on a
non-empty playlist the cursor lies in `[0, playlist length)` — even when it
was out of range beforehand — and consequently the `playlist[cursor]`
indexing inside the `play_music` they call is in bounds: no `IndexError`
escapes (`error = false`). -/
theorem claim_C10 (env : Env) (st : MP3State) (h : st.playlist ≠ []) :
    (0 ≤ (play_next_song env st).state.current_song_index ∧
     (play_next_song env st).state.current_song_index < (st.playlist.length : Int) ∧
     (play_next_song env st).error = false) ∧
    (0 ≤ (play_previous_song env st).state.current_song_index ∧
     (play_previous_song env st).state.current_song_index < (st.playlist.length : Int) ∧
     (play_previous_song env st).error = false) := by
  have hlen : (0 : Int) < (st.playlist.length : Int) := by
    exact_mod_cast List.length_pos.mpr h
  constructor
  · unfold play_next_song
    rw [if_neg (by simpa [List.isEmpty_iff] using h)]
    refine ⟨?_, ?_, ?_⟩
    · rw [play_music_cursor]
      exact Int.emod_nonneg _ (by omega)
    · rw [play_music_cursor]
      exact Int.emod_lt_of_pos _ hlen
    · exact play_music_no_error env _ (Int.emod_nonneg _ (by omega))
        (by simpa using Int.emod_lt_of_pos (st.current_song_index + 1) hlen)
  · unfold play_previous_song
    rw [if_neg (by simpa [List.isEmpty_iff] using h)]
    refine ⟨?_, ?_, ?_⟩
    · rw [play_music_cursor]
      exact Int.emod_nonneg _ (by omega)
    · rw [play_music_cursor]
      exact Int.emod_lt_of_pos _ hlen
    · exact play_music_no_error env _ (Int.emod_nonneg _ (by omega))
        (by simpa using Int.emod_lt_of_pos (st.current_song_index - 1) hlen)

theorem claim_C10_witness :
    stStale.playlist ≠ [] ∧
    0 ≤ (play_next_song envW stStale).state.current_song_index ∧
    (play_next_song envW stStale).state.current_song_index
      < (stStale.playlist.length : Int) ∧
    (play_next_song envW stStale).error = false :=
  ⟨by decide,
   ((claim_C10 envW stStale (by decide)).1).1,
   ((claim_C10 envW stStale (by decide)).1).2.1,
   ((claim_C10 envW stStale (by decide)).1).2.2⟩


lemma add_folder_scan_go (env : Env) (fp : String) : ∀ (entries : List DirEntry) (acc : List Song),
    entries.foldl
      (fun acc e =>
        if e.isFile && (e.name.toLower.endsWith ".mp3") then acc ++ [entry_song env fp e]
        else acc)
      acc
    = acc ++ entries.filterMap
        (fun e =>
          if e.isFile && (e.name.toLower.endsWith ".mp3") then some (entry_song env fp e)
          else none) := by
  intro entries
  induction entries with
  | nil => intro acc; simp
  | cons e es ih =>
    intro acc
    by_cases hc : (e.isFile && (e.name.toLower.endsWith ".mp3")) = true
    · have hfe : (fun e : DirEntry =>
          if e.isFile && (e.name.toLower.endsWith ".mp3") then some (entry_song env fp e)
          else none) e = some (entry_song env fp e) := if_pos hc
      rw [List.foldl_cons, if_pos hc, ih,
        @List.filterMap_cons_some DirEntry Song
          (fun e : DirEntry =>
            if e.isFile && (e.name.toLower.endsWith ".mp3") then some (entry_song env fp e)
            else none)
          e es (entry_song env fp e) hfe,
        List.append_assoc]
      rfl
    · have hfe : (fun e : DirEntry =>
          if e.isFile && (e.name.toLower.endsWith ".mp3") then some (entry_song env fp e)
          else none) e = none := if_neg hc
      rw [List.foldl_cons, if_neg hc, ih,
        @List.filterMap_cons_none DirEntry Song
          (fun e : DirEntry =>
            if e.isFile && (e.name.toLower.endsWith ".mp3") then some (entry_song env fp e)
            else none)
          e es hfe]

lemma add_folder_scan_eq (env : Env) (fp : String) (entries : List DirEntry) :
    add_folder_scan env fp entries
      = entries.filterMap
          (fun e =>
            if e.isFile && (e.name.toLower.endsWith ".mp3") then some (entry_song env fp e)
            else none) := by
  unfold add_folder_scan
  simpa using add_folder_scan_go env fp entries []

/-- C3: a chosen folder fully replaces the playlist.  The new playlist does
not depend on the prior one, it is exactly the directory entries that are
files with a case-insensitive `.mp3` suffix (in listing order, each turned
into its song dict), membership is characterized accordingly, nothing but
the playlist field changes, and the preview is re-rendered. -/
theorem claim_C3 (env : Env) (fp : String) (entries : List DirEntry) (st st' : MP3State) :
    (add_folder env (some (fp, entries)) st).1.playlist
      = (add_folder env (some (fp, entries)) st').1.playlist ∧
    (add_folder env (some (fp, entries)) st).1.playlist
      = entries.filterMap
          (fun e =>
            if e.isFile && (e.name.toLower.endsWith ".mp3") then some (entry_song env fp e)
            else none) ∧
    (∀ s : Song, s ∈ (add_folder env (some (fp, entries)) st).1.playlist ↔
       ∃ e ∈ entries, (e.isFile && (e.name.toLower.endsWith ".mp3")) = true
         ∧ s = entry_song env fp e) ∧
    (add_folder env (some (fp, entries)) st).1
      = { st with playlist := add_folder_scan env fp entries } ∧
    (add_folder env (some (fp, entries)) st).2
      = update_playlist_preview (add_folder_scan env fp entries) := by
  refine ⟨rfl, add_folder_scan_eq env fp entries, ?_, rfl, rfl⟩
  intro s
  show s ∈ add_folder_scan env fp entries ↔ _
  rw [add_folder_scan_eq, List.mem_filterMap]
  constructor
  · rintro ⟨e, he, hfe⟩
    by_cases hc : (e.isFile && (e.name.toLower.endsWith ".mp3")) = true
    · rw [if_pos hc] at hfe
      exact ⟨e, he, hc, (Option.some.inj hfe).symm⟩
    · rw [if_neg hc] at hfe
      cases hfe
  · rintro ⟨e, he, hc, hs⟩
    exact ⟨e, he, by rw [if_pos hc, hs]⟩

/-- C4: toggling shuffle on performs one immediate Fisher-Yates pass over
the playlist, which is a permutation (no entry lost or duplicated) and
leaves every other state field unchanged; toggling it off changes only the
flag (and the button rendering) and leaves the playlist untouched. -/
theorem claim_C4 (rand : Nat → Nat) (st : MP3State) :
    (st.shuffle = false →
       (toggle_shuffle rand st).1.playlist.Perm st.playlist ∧
       (toggle_shuffle rand st).1.shuffle = true ∧
       (toggle_shuffle rand st).1.current_song_index = st.current_song_index ∧
       (toggle_shuffle rand st).1.is_music_playing = st.is_music_playing ∧
       (toggle_shuffle rand st).1.visualizer_index = st.visualizer_index ∧
       (toggle_shuffle rand st).1.resume_position = st.resume_position ∧
       (toggle_shuffle rand st).1.«repeat» = st.«repeat» ∧
       (toggle_shuffle rand st).2 = [Effect.set_relief_sunken "shuffleButton" true]) ∧
    (st.shuffle = true →
       (toggle_shuffle rand st).1 = { st with shuffle := false } ∧
       (toggle_shuffle rand st).2 = [Effect.set_relief_sunken "shuffleButton" false]) := by
  obtain ⟨pl, rp, mp, vi, ci, rep, sh⟩ := st
  constructor
  · intro hs
    cases hs
    refine ⟨?_, rfl, rfl, rfl, rfl, rfl, rfl, rfl⟩
    simpa [toggle_shuffle] using random_shuffle_perm rand pl
  · intro hs
    cases hs
    exact ⟨rfl, rfl⟩

def stShufOn : MP3State :=
  { stW with shuffle := true }

theorem claim_C4_witness :
    stW.shuffle = false ∧
    (toggle_shuffle (fun _ => 0) stW).1.playlist.Perm stW.playlist ∧
    stShufOn.shuffle = true ∧
    (toggle_shuffle (fun _ => 0) stShufOn).1 = { stShufOn with shuffle := false } :=
  ⟨rfl, ((claim_C4 (fun _ => 0) stW).1 rfl).1, rfl,
   ((claim_C4 (fun _ => 0) stShufOn).2 rfl).1⟩


lemma play_music_set_repeat (env : Env) (st : MP3State) (b : Bool) :
    play_music env (set_repeat st b)
      = { state := set_repeat (play_music env st).state b,
          effects := (play_music env st).effects,
          error := (play_music env st).error } := by
  obtain ⟨pl, rp, mp, vi, ci, rep, sh⟩ := st
  show play_music env ⟨pl, rp, mp, vi, ci, b, sh⟩ = _
  unfold play_music
  dsimp only
  split
  · rfl
  · split
    · rfl
    · rfl

lemma play_next_song_set_repeat (env : Env) (st : MP3State) (b : Bool) :
    play_next_song env (set_repeat st b)
      = { state := set_repeat (play_next_song env st).state b,
          effects := (play_next_song env st).effects,
          error := (play_next_song env st).error } := by
  obtain ⟨pl, rp, mp, vi, ci, rep, sh⟩ := st
  show play_next_song env ⟨pl, rp, mp, vi, ci, b, sh⟩ = _
  unfold play_next_song
  dsimp only
  split
  · rfl
  · exact play_music_set_repeat env ⟨pl, rp, mp, vi, (ci + 1) % (pl.length : Int), rep, sh⟩ b

lemma play_previous_song_set_repeat (env : Env) (st : MP3State) (b : Bool) :
    play_previous_song env (set_repeat st b)
      = { state := set_repeat (play_previous_song env st).state b,
          effects := (play_previous_song env st).effects,
          error := (play_previous_song env st).error } := by
  obtain ⟨pl, rp, mp, vi, ci, rep, sh⟩ := st
  show play_previous_song env ⟨pl, rp, mp, vi, ci, b, sh⟩ = _
  unfold play_previous_song
  dsimp only
  split
  · rfl
  · exact play_music_set_repeat env ⟨pl, rp, mp, vi, (ci - 1) % (pl.length : Int), rep, sh⟩ b

/-- C6: the repeat flag is dead state.  Two states differing only in the
flag take the same `play_next_song` / `play_previous_song` transitions:
same playlist and cursor (indeed the whole resulting state up to the flag
itself), the same external command trace, and the same error outcome; and
`toggle_repeat` changes nothing but the flag and the button relief. -/
theorem claim_C6 (env : Env) (st : MP3State) (b : Bool) :
    ((play_next_song env (set_repeat st b)).state
        = set_repeat (play_next_song env st).state b ∧
     (play_next_song env (set_repeat st b)).effects = (play_next_song env st).effects ∧
     (play_next_song env (set_repeat st b)).error = (play_next_song env st).error) ∧
    ((play_previous_song env (set_repeat st b)).state
        = set_repeat (play_previous_song env st).state b ∧
     (play_previous_song env (set_repeat st b)).effects
        = (play_previous_song env st).effects ∧
     (play_previous_song env (set_repeat st b)).error = (play_previous_song env st).error) ∧
    (toggle_repeat st).1 = set_repeat st (!st.«repeat») ∧
    (toggle_repeat st).2 = [Effect.set_relief_sunken "repeatButton" (!st.«repeat»)] := by
  refine ⟨⟨?_, ?_, ?_⟩, ⟨?_, ?_, ?_⟩, rfl, rfl⟩
  · rw [play_next_song_set_repeat]
  · rw [play_next_song_set_repeat]
  · rw [play_next_song_set_repeat]
  · rw [play_previous_song_set_repeat]
  · rw [play_previous_song_set_repeat]
  · rw [play_previous_song_set_repeat]


/-- C7: on an empty playlist, Next, Previous and double-click-to-play are
no-ops: the state is unchanged, no external command is issued, and no
exception escapes (the modulo in next/previous sits behind the
`if self.playlist:` guard, and an empty listbox yields no selection). -/
theorem claim_C7 (env : Env) (st : MP3State) (sel : Option Nat)
    (h : st.playlist = []) (hs : selection_ok st sel = true) :
    play_next_song env st = { state := st, effects := [], error := false } ∧
    play_previous_song env st = { state := st, effects := [], error := false } ∧
    play_selected_song env sel st = { state := st, effects := [], error := false } := by
  refine ⟨?_, ?_, ?_⟩
  · unfold play_next_song
    rw [if_pos (by simp [h])]
  · unfold play_previous_song
    rw [if_pos (by simp [h])]
  · cases sel with
    | none => rfl
    | some i =>
      exfalso
      simp [selection_ok, h] at hs

def stEmpty : MP3State :=
  { playlist := [], resume_position := 0, is_music_playing := false,
    visualizer_index := 0, current_song_index := 0, «repeat» := false, shuffle := false }

theorem claim_C7_witness :
    stEmpty.playlist = [] ∧ selection_ok stEmpty none = true ∧
    play_next_song envW stEmpty = { state := stEmpty, effects := [], error := false } ∧
    play_previous_song envW stEmpty = { state := stEmpty, effects := [], error := false } ∧
    play_selected_song envW none stEmpty
      = { state := stEmpty, effects := [], error := false } := by
  have h := claim_C7 envW stEmpty none rfl rfl
  exact ⟨rfl, rfl, h.1, h.2.1, h.2.2⟩

/-- C8: on a time-display tick with a track playing and a non-empty
playlist, the mutagen metadata query — and hence the total duration shown —
targets the path of playlist entry 0, and the whole tick is independent of
`current_song_index`, i.e. of which song is actually playing. -/
theorem claim_C8 (env : Env) (st : MP3State) (first : Song) (rest : List Song)
    (hp : st.is_music_playing = true) (hl : st.playlist = first :: rest) :
    (∃ tail, display_time env st = Effect.query_metadata first.path :: tail) ∧
    (∀ total, env.song_seconds first.path = some total →
       display_time env st
         = [Effect.query_metadata first.path,
            Effect.set_time_text (format_time (env.get_pos_ms / 1000) total),
            Effect.schedule_after 1000 "display_time"]) ∧
    (∀ j : Int, display_time env { st with current_song_index := j } = display_time env st) := by
  refine ⟨?_, ?_, fun j => rfl⟩
  · unfold display_time
    rw [hp, hl]
    dsimp only
    cases hm : env.song_seconds first.path
    · exact ⟨_, rfl⟩
    · exact ⟨_, rfl⟩
  · intro total htot
    unfold display_time
    rw [hp, hl]
    dsimp only
    rw [htot]
    rfl

def stC8 : MP3State :=
  { playlist := [songA, songB], resume_position := 0, is_music_playing := true,
    visualizer_index := 0, current_song_index := 1, «repeat» := false, shuffle := false }

theorem claim_C8_witness :
    stC8.is_music_playing = true ∧ stC8.playlist = songA :: [songB] ∧
    stC8.current_song_index = 1 ∧
    (∃ tail, display_time envW stC8 = Effect.query_metadata songA.path :: tail) ∧
    display_time envW { stC8 with current_song_index := 0 } = display_time envW stC8 := by
  have h := claim_C8 envW stC8 songA [songB] rfl rfl
  exact ⟨rfl, rfl, rfl, h.1, h.2.2 0⟩

/-- C9: each visualizer firing with playback active renders the current
frame cropped to its top half, schedules the next firing after the current
frame's declared duration, and advances the index modulo the sequence
length; with playback inactive it renders nothing and does not reschedule.
In the decoded sequence (`get_frames`) frame `i` declares duration
`gif.info['duration']` for `i = 0` and `100` otherwise. -/
theorem claim_C9 (env : Env) (st : MP3State) :
    (∀ f, st.is_music_playing = true → env.frames.get? st.visualizer_index = some f →
       display_visualizer_frame env st
         = { state := { st with
               visualizer_index := (st.visualizer_index + 1) % env.frames.length },
             effects := [Effect.render_frame f.fid 0 0 f.width (f.height / 2),
                         Effect.schedule_after f.duration "display_visualizer_frame"],
             error := false }) ∧
    (st.is_music_playing = false →
       display_visualizer_frame env st = { state := st, effects := [], error := false }) ∧
    (∀ (g : GifData) (i : Nat), i < g.num_frames →
       (get_frames g)[i]?
         = some { fid := i, width := g.frame_width i, height := g.frame_height i,
                  duration := if i = 0 then g.info_duration else 100 }) := by
  refine ⟨?_, ?_, ?_⟩
  · intro f hp hf
    unfold display_visualizer_frame
    rw [if_pos hp, hf]
  · intro hp
    unfold display_visualizer_frame
    rw [if_neg (by simp [hp])]
  · intro g i hi
    unfold get_frames
    rw [List.getElem?_map, List.getElem?_range hi]
    rfl

def stVis : MP3State :=
  { playlist := [songA], resume_position := 0, is_music_playing := true,
    visualizer_index := 1, current_song_index := 0, «repeat» := false, shuffle := false }

theorem claim_C9_witness :
    stVis.is_music_playing = true ∧
    envW.frames.get? stVis.visualizer_index
      = some { fid := 1, width := 4, height := 5, duration := 100 } ∧
    display_visualizer_frame envW stVis
      = { state := { stVis with visualizer_index := 0 },
          effects := [Effect.render_frame 1 0 0 4 2,
                      Effect.schedule_after 100 "display_visualizer_frame"],
          error := false } ∧
    stEmpty.is_music_playing = false ∧
    display_visualizer_frame envW stEmpty
      = { state := stEmpty, effects := [], error := false } := by
  refine ⟨rfl, rfl, ?_, rfl, ?_⟩
  · have h := (claim_C9 envW stVis).1 { fid := 1, width := 4, height := 5, duration := 100 }
      rfl rfl
    rw [h]
    decide
  · exact (claim_C9 envW stEmpty).2.1 rfl


lemma pyIndex_nil (i : Int) : pyIndex ([] : List α) i = none := by
  unfold pyIndex
  split
  · simp
  · split
    · simp
    · rfl

/-- A state about to replay: two songs, cursor on the first, with the
visualizer already advanced to frame 1 by an earlier playback. -/
def stC2 : MP3State :=
  { playlist := [songA, songB], resume_position := 0, is_music_playing := false,
    visualizer_index := 1, current_song_index := 0, «repeat» := false, shuffle := false }

/-- C2, as stated, is false: `play_music` never resets the visualizer frame
index — from `visualizer_index = 1` it is still `1` after play (only
`stop_music` resets it to `0`). -/
theorem claim_C2_counterexample :
    ¬ ((play_music envW stC2).state.visualizer_index = 0) := by decide

/-- C2 (amended): for a non-empty playlist with the cursor indexing a song,
`play_music` loads that song into the engine, starts playback from position
0 (after setting `resume_position = 0`), sets the playing flag, leaves the
visualizer frame index unchanged (it is not reset to 0), and (re)starts the
visualizer animation by scheduling the visualizer callback after the
current frame's duration (the scheduling happens whenever the frame index
is within the decoded sequence). -/
theorem claim_C2 (env : Env) (st : MP3State) (song : Song)
    (hs : pyIndex st.playlist st.current_song_index = some song)
    (hvi : st.visualizer_index < env.frames.length) :
    (play_music env st).state
      = { st with resume_position := 0, is_music_playing := true } ∧
    (play_music env st).state.visualizer_index = st.visualizer_index ∧
    (∃ f, env.frames.get? st.visualizer_index = some f ∧
       (play_music env st).effects
         = Effect.music_load song.path :: Effect.music_play 0 ::
             Effect.schedule_after f.duration "display_visualizer_frame" ::
             display_time env { st with resume_position := 0, is_music_playing := true }) ∧
    (play_music env st).error = false := by
  have hne : st.playlist ≠ [] := by
    intro h0
    rw [h0, pyIndex_nil] at hs
    cases hs
  obtain ⟨f, hf⟩ : ∃ f, env.frames.get? st.visualizer_index = some f :=
    ⟨env.frames.get ⟨st.visualizer_index, hvi⟩, List.get?_eq_get hvi⟩
  unfold play_music
  rw [if_neg (by simpa [List.isEmpty_iff] using hne), hs]
  refine ⟨rfl, rfl, ⟨f, hf, ?_⟩, rfl⟩
  dsimp only
  unfold display_album_cover
  dsimp only
  rw [hf]
  rfl

theorem claim_C2_witness :
    pyIndex stC2.playlist stC2.current_song_index = some songA ∧
    stC2.visualizer_index < envW.frames.length ∧
    (play_music envW stC2).state
      = { stC2 with resume_position := 0, is_music_playing := true } ∧
    (play_music envW stC2).state.visualizer_index = stC2.visualizer_index ∧
    (play_music envW stC2).error = false := by
  have h := claim_C2 envW stC2 songA (by decide) (by decide)
  exact ⟨by decide, by decide, h.1, h.2.1, h.2.2.2⟩

lemma display_visualizer_frame_flag (env : Env) (st : MP3State) :
    (display_visualizer_frame env st).state.is_music_playing = st.is_music_playing := by
  unfold display_visualizer_frame
  split
  · split
    · rfl
    · rfl
  · rfl

lemma display_visualizer_frame_effects (env : Env) (st : MP3State) :
    (display_visualizer_frame env st).effects = [] ∨
    ∃ f : Frame, (display_visualizer_frame env st).effects
      = [Effect.render_frame f.fid 0 0 f.width (f.height / 2),
         Effect.schedule_after f.duration "display_visualizer_frame"] := by
  unfold display_visualizer_frame
  split
  · split
    · exact Or.inr ⟨_, rfl⟩
    · exact Or.inl rfl
  · exact Or.inl rfl

/-- The Stopped state used as the counterexample: the result of playing the
demo playlist and then pressing Stop. -/
def stStopped : MP3State :=
  (stop_music (play_music envW stW).state).1

/-- C5, as stated, is false: `pause_resume_music` has no Stopped case — in
the Stopped state (playing flag clear after `stop_music`) it takes the
resume branch and sets the playing flag. -/
theorem claim_C5_counterexample :
    (pause_resume_music envW stStopped).state.is_music_playing = true := by decide

/-- C5 (amended): the operation branches solely on the playing flag, not on
a three-state machine.  From Playing it suspends engine output and clears
the flag.  From not-Playing — Paused and Stopped are indistinguishable to
it — it unsuspends engine output and sets the flag (restarting the
visualizer chain); it never issues a load or play command, so no new
playback is started, but invoked in the Stopped state it does set the
playing flag. -/
theorem claim_C5 (env : Env) (st : MP3State) :
    (st.is_music_playing = true →
       pause_resume_music env st
         = { state := { st with is_music_playing := false },
             effects := [Effect.music_pause,
                         Effect.set_button_text "pause_resume" "Resume"],
             error := false }) ∧
    (st.is_music_playing = false →
       (pause_resume_music env st).state.is_music_playing = true ∧
       Effect.music_unpause ∈ (pause_resume_music env st).effects ∧
       (∀ p, Effect.music_play p ∉ (pause_resume_music env st).effects) ∧
       (∀ p, Effect.music_load p ∉ (pause_resume_music env st).effects)) := by
  constructor
  · intro hp
    unfold pause_resume_music
    rw [if_pos hp]
  · intro hp
    unfold pause_resume_music
    rw [if_neg (by simp [hp])]
    dsimp only
    refine ⟨?_, ?_, ?_, ?_⟩
    · exact display_visualizer_frame_flag env _
    · exact List.mem_cons_self _ _
    · intro p hmem
      simp only [List.mem_cons] at hmem
      rcases hmem with h | h | h
      · cases h
      · cases h
      · rcases display_visualizer_frame_effects env
          { st with is_music_playing := true } with he | ⟨f, he⟩
        · rw [he] at h
          cases h
        · rw [he] at h
          simp at h
    · intro p hmem
      simp only [List.mem_cons] at hmem
      rcases hmem with h | h | h
      · cases h
      · cases h
      · rcases display_visualizer_frame_effects env
          { st with is_music_playing := true } with he | ⟨f, he⟩
        · rw [he] at h
          cases h
        · rw [he] at h
          simp at h

/-- A Playing state for the witness of the pause branch. -/
def stPlaying : MP3State :=
  (play_music envW stW).state

theorem claim_C5_witness :
    stPlaying.is_music_playing = true ∧
    pause_resume_music envW stPlaying
      = { state := { stPlaying with is_music_playing := false },
          effects := [Effect.music_pause,
                      Effect.set_button_text "pause_resume" "Resume"],
          error := false } ∧
    stStopped.is_music_playing = false ∧
    (pause_resume_music envW stStopped).state.is_music_playing = true ∧
    Effect.music_unpause ∈ (pause_resume_music envW stStopped).effects := by
  have h1 := (claim_C5 envW stPlaying).1 (by decide)
  have h2 := (claim_C5 envW stStopped).2 (by decide)
  exact ⟨by decide, h1, by decide, h2.1, h2.2.1⟩


def dirEntries : List DirEntry :=
  [{ name := "Track.MP3", isFile := true },
   { name := "notes.txt", isFile := true },
   { name := "album.mp3", isFile := false },
   { name := "b.mp3", isFile := true }]

theorem claim_C3_witness :
    (add_folder envW (some ("dir", dirEntries)) stW).1.playlist
      = (add_folder envW (some ("dir", dirEntries)) stEmpty).1.playlist ∧
    (add_folder envW (some ("dir", dirEntries)) stW).1
      = { stW with playlist := add_folder_scan envW "dir" dirEntries } :=
  ⟨(claim_C3 envW "dir" dirEntries stW stEmpty).1,
   (claim_C3 envW "dir" dirEntries stW stEmpty).2.2.2.1⟩

theorem claim_C6_witness :
    (play_next_song envW (set_repeat stW true)).state
      = set_repeat (play_next_song envW stW).state true ∧
    (play_next_song envW (set_repeat stW true)).effects
      = (play_next_song envW stW).effects :=
  ⟨(claim_C6 envW stW true).1.1, (claim_C6 envW stW true).1.2.1⟩

end MP3
